import Mathlib

/-!
Shallow embedding of the sck-rs capture library (a ScreenCaptureKit-based
screen-capture crate): the BGRA-to-RGBA buffer extractor, the window crop
resolver, display and window enumeration with metadata reconciliation, and
the error classification, translated from `src/capture.rs`, `src/monitor.rs`,
`src/window.rs` and `src/error.rs`.  Machine integers (`u32`, `usize`, `i32`)
are modelled as `Nat` or `Int` with the saturating behaviour of the source
spelled out; bytes are `Nat`; the floating-point frame coordinates are
modelled as `Int`, since the properties below only use their ordering,
addition, subtraction and exact comparison with zero.
-/

namespace Sck

/-- Error model of `XCapError` (`src/error.rs`).  The Rust type carries a
message string; the distinct constructor helpers used by the pipeline
(`permission_denied`, `capture_failed`, `no_monitors`, `no_windows`,
`window_not_found`, `monitor_not_found`, `new`) are modelled as distinguished
cases so that classification claims are statable. -/
inductive XCapError where
  | permissionDenied
  | captureFailed (details : String)
  | noMonitors
  | noWindows
  | windowNotFound (id : Nat)
  | monitorNotFound (id : Nat)
  | other (msg : String)
  deriving DecidableEq, Repr

/-- Model of the `image::RgbaImage` container: explicit width and height with
a flat byte buffer. -/
structure RgbaImage where
  width : Nat
  height : Nat
  data : List Nat
  deriving DecidableEq, Repr

/-- Modelled from the `image` crate dependency: `ImageBuffer::from_raw`
succeeds exactly when the container holds at least `width * height * 4`
bytes (four channels per RGBA pixel) and fails (returns `None`) otherwise. -/
def rgbaImage_from_raw (width height : Nat) (buf : List Nat) : Option RgbaImage :=
  if width * height * 4 ≤ buf.length then some ⟨width, height, buf⟩ else none

/-- One iteration of the pixel loop in `image_buf_to_rgba`
(`src/capture.rs` lines 115-122): read the 4-byte BGRA pixel starting at
`pixelStart` and append it channel-swapped (R, G, B, A) onto the output
buffer; a pixel whose 4-byte span would run past the end of `pixels` is
skipped entirely. -/
def convertPixel (pixels : List Nat) (pixelStart : Nat) (buffer : List Nat) : List Nat :=
  if pixelStart + 3 < pixels.length then
    buffer ++ [pixels.getD (pixelStart + 2) 0, pixels.getD (pixelStart + 1) 0,
               pixels.getD pixelStart 0, pixels.getD (pixelStart + 3) 0]
  else
    buffer

/-- The inner `for col in 0..width` loop of `image_buf_to_rgba`
(`src/capture.rs` lines 114-123), with `rowStart = row * bytes_per_row`. -/
def convertRow (pixels : List Nat) (rowStart width : Nat) (buffer : List Nat) : List Nat :=
  (List.range width).foldl (fun buf col => convertPixel pixels (rowStart + col * 4) buf) buffer

/-- The nested row/column loops of `image_buf_to_rgba`
(`src/capture.rs` lines 110-124): assemble the RGBA output buffer starting
from the empty vector. -/
def convertBuffer (width height bytesPerRow : Nat) (pixels : List Nat) : List Nat :=
  (List.range height).foldl (fun buf row => convertRow pixels (row * bytesPerRow) width buf) []

/-- The conversion as the spec words it: walk rows `0..height` and columns
`0..width`; at offset `row*stride + col*4` the input bytes `[B,G,R,A]`
become the output bytes `[R,G,B,A]`, and any pixel whose 4-byte span would
exceed the buffer length is omitted entirely.  Stated by flat concatenation,
independently of the loop/accumulator structure of the code, for comparison
with `convertBuffer`. -/
def rgbaSpec (width height bytesPerRow : Nat) (pixels : List Nat) : List Nat :=
  (List.range height).flatMap fun row =>
    (List.range width).flatMap fun col =>
      if row * bytesPerRow + col * 4 + 3 < pixels.length then
        [pixels.getD (row * bytesPerRow + col * 4 + 2) 0,
         pixels.getD (row * bytesPerRow + col * 4 + 1) 0,
         pixels.getD (row * bytesPerRow + col * 4) 0,
         pixels.getD (row * bytesPerRow + col * 4 + 3) 0]
      else
        []

lemma foldl_of_append {α β : Type} (g : List β → α → List β) (f : α → List β)
    (hg : ∀ buf x, g buf x = buf ++ f x) :
    ∀ (l : List α) (init : List β), l.foldl g init = init ++ l.flatMap f := by
  intro l
  induction l with
  | nil => intro init; simp
  | cons a t ih =>
      intro init
      rw [List.foldl_cons, hg, ih, List.flatMap_cons, List.append_assoc]

lemma convertRow_eq_flatMap (pixels : List Nat) (rowStart width : Nat) (buffer : List Nat) :
    convertRow pixels rowStart width buffer =
      buffer ++ (List.range width).flatMap fun col =>
        if rowStart + col * 4 + 3 < pixels.length then
          [pixels.getD (rowStart + col * 4 + 2) 0, pixels.getD (rowStart + col * 4 + 1) 0,
           pixels.getD (rowStart + col * 4) 0, pixels.getD (rowStart + col * 4 + 3) 0]
        else
          [] := by
  unfold convertRow
  apply foldl_of_append
  intro buf col
  unfold convertPixel
  split <;> simp

/-- C1.  BGRA-to-RGBA extraction is channel-swap correct: the buffer built by
the nested loops of `image_buf_to_rgba` equals, for every width, height,
stride and byte buffer, the row-major concatenation that reads the 4 bytes
at `row*stride + col*4` and emits them in the order R, G, B, A (input
`[B,G,R,A]` becomes output `[R,G,B,A]`), skipping entirely every pixel whose
4-byte span would exceed the buffer length. -/
theorem bgra_extraction_channel_swap_correct
    (width height bytesPerRow : Nat) (pixels : List Nat) :
    convertBuffer width height bytesPerRow pixels = rgbaSpec width height bytesPerRow pixels := by
  unfold convertBuffer rgbaSpec
  have h := foldl_of_append
    (fun buf row => convertRow pixels (row * bytesPerRow) width buf)
    (fun row => (List.range width).flatMap fun col =>
      if row * bytesPerRow + col * 4 + 3 < pixels.length then
        [pixels.getD (row * bytesPerRow + col * 4 + 2) 0,
         pixels.getD (row * bytesPerRow + col * 4 + 1) 0,
         pixels.getD (row * bytesPerRow + col * 4) 0,
         pixels.getD (row * bytesPerRow + col * 4 + 3) 0]
      else
        [])
    (fun buf row => convertRow_eq_flatMap pixels (row * bytesPerRow) width buf)
    (List.range height) []
  simpa using h

/-- The final image-construction step of `image_buf_to_rgba`
(`src/capture.rs` lines 126-127): `RgbaImage::from_raw(width, height,
buffer).ok_or_else(capture_failed)`. -/
def constructImage (width height : Nat) (buffer : List Nat) : Except XCapError RgbaImage :=
  match rgbaImage_from_raw width height buffer with
  | some img => Except.ok img
  | none => Except.error (XCapError.captureFailed "Failed to create image from buffer")

lemma length_flatMap_range_le {β : Type} (f : Nat → List β) (c n : Nat)
    (hf : ∀ i, (f i).length ≤ c) :
    ((List.range n).flatMap f).length ≤ c * n := by
  induction n with
  | zero => simp
  | succ n ih =>
      rw [List.range_succ, List.flatMap_append]
      simp only [List.length_append, List.flatMap_cons, List.flatMap_nil, List.append_nil]
      have := hf n
      have : c * (n + 1) = c * n + c := by ring
      omega

lemma length_flatMap_range_eq_iff {β : Type} (f : Nat → List β) (c n : Nat)
    (hf : ∀ i, (f i).length ≤ c) :
    ((List.range n).flatMap f).length = c * n ↔ ∀ i < n, (f i).length = c := by
  induction n with
  | zero => simp
  | succ n ih =>
      rw [List.range_succ, List.flatMap_append]
      simp only [List.length_append, List.flatMap_cons, List.flatMap_nil, List.append_nil]
      have hle := length_flatMap_range_le f c n hf
      have hfn := hf n
      have hmul : c * (n + 1) = c * n + c := by ring
      constructor
      · intro h
        have e1 : ((List.range n).flatMap f).length = c * n := by omega
        have e2 : (f n).length = c := by omega
        intro i hi
        rcases Nat.lt_succ_iff_lt_or_eq.mp hi with h' | h'
        · exact (ih.mp e1) i h'
        · subst h'; exact e2
      · intro h
        have e1 : ((List.range n).flatMap f).length = c * n :=
          ih.mpr (fun i hi => h i (Nat.lt_succ_of_lt hi))
        rw [e1, h n (Nat.lt_succ_self n)]
        omega

lemma rowSpec_length_le (pixels : List Nat) (bytesPerRow width row : Nat) :
    (((List.range width).flatMap fun col =>
      if row * bytesPerRow + col * 4 + 3 < pixels.length then
        [pixels.getD (row * bytesPerRow + col * 4 + 2) 0,
         pixels.getD (row * bytesPerRow + col * 4 + 1) 0,
         pixels.getD (row * bytesPerRow + col * 4) 0,
         pixels.getD (row * bytesPerRow + col * 4 + 3) 0]
      else
        []).length) ≤ 4 * width := by
  apply length_flatMap_range_le
  intro col
  split <;> simp

lemma convertBuffer_length_le (width height bytesPerRow : Nat) (pixels : List Nat) :
    (convertBuffer width height bytesPerRow pixels).length ≤ width * height * 4 := by
  rw [bgra_extraction_channel_swap_correct]
  unfold rgbaSpec
  have h := length_flatMap_range_le
    (fun row => (List.range width).flatMap fun col =>
      if row * bytesPerRow + col * 4 + 3 < pixels.length then
        [pixels.getD (row * bytesPerRow + col * 4 + 2) 0,
         pixels.getD (row * bytesPerRow + col * 4 + 1) 0,
         pixels.getD (row * bytesPerRow + col * 4) 0,
         pixels.getD (row * bytesPerRow + col * 4 + 3) 0]
      else
        [])
    (4 * width) height
    (fun row => rowSpec_length_le pixels bytesPerRow width row)
  calc (rgbaSpec width height bytesPerRow pixels).length
      ≤ 4 * width * height := h
    _ = width * height * 4 := by ring

lemma convertBuffer_length_eq_iff (width height bytesPerRow : Nat) (pixels : List Nat) :
    (convertBuffer width height bytesPerRow pixels).length = width * height * 4 ↔
      ∀ row < height, ∀ col < width, row * bytesPerRow + col * 4 + 3 < pixels.length := by
  rw [bgra_extraction_channel_swap_correct]
  unfold rgbaSpec
  have houter := length_flatMap_range_eq_iff
    (fun row => (List.range width).flatMap fun col =>
      if row * bytesPerRow + col * 4 + 3 < pixels.length then
        [pixels.getD (row * bytesPerRow + col * 4 + 2) 0,
         pixels.getD (row * bytesPerRow + col * 4 + 1) 0,
         pixels.getD (row * bytesPerRow + col * 4) 0,
         pixels.getD (row * bytesPerRow + col * 4 + 3) 0]
      else
        [])
    (4 * width) height
    (fun row => rowSpec_length_le pixels bytesPerRow width row)
  have hmul : width * height * 4 = 4 * width * height := by ring
  rw [hmul, houter]
  apply forall_congr'
  intro row
  apply imp_congr_right
  intro _
  have hinner := length_flatMap_range_eq_iff
    (fun col =>
      if row * bytesPerRow + col * 4 + 3 < pixels.length then
        [pixels.getD (row * bytesPerRow + col * 4 + 2) 0,
         pixels.getD (row * bytesPerRow + col * 4 + 1) 0,
         pixels.getD (row * bytesPerRow + col * 4) 0,
         pixels.getD (row * bytesPerRow + col * 4 + 3) 0]
      else
        [])
    4 width (by intro col; dsimp only; split <;> simp)
  dsimp only
  rw [hinner]
  apply forall_congr'
  intro col
  apply imp_congr_right
  intro _
  dsimp only
  split
  · simp_all
  · simp_all

/-- C8.  Final length check of extraction: the image-construction step on the
assembled buffer fails with `CaptureFailed` exactly when the buffer's length
is not exactly `width*height*4`; that happens exactly when the bounds check
skipped at least one pixel; and when the length matches, the step succeeds
with a width-by-height RGBA image over that buffer. -/
theorem final_length_check_exact (width height bytesPerRow : Nat) (pixels : List Nat) :
    (constructImage width height (convertBuffer width height bytesPerRow pixels)
        = Except.error (XCapError.captureFailed "Failed to create image from buffer")
      ↔ (convertBuffer width height bytesPerRow pixels).length ≠ width * height * 4)
    ∧ ((convertBuffer width height bytesPerRow pixels).length ≠ width * height * 4
      ↔ ∃ row < height, ∃ col < width, ¬row * bytesPerRow + col * 4 + 3 < pixels.length)
    ∧ (constructImage width height (convertBuffer width height bytesPerRow pixels)
        = Except.ok ⟨width, height, convertBuffer width height bytesPerRow pixels⟩
      ↔ (convertBuffer width height bytesPerRow pixels).length = width * height * 4) := by
  have hle := convertBuffer_length_le width height bytesPerRow pixels
  refine ⟨?_, ?_, ?_⟩
  · unfold constructImage rgbaImage_from_raw
    split
    · rename_i img heq
      split at heq
      · rename_i hcle
        constructor
        · intro h
          exact absurd h (by simp)
        · intro h
          exact absurd (le_antisymm hle hcle) h
      · exact absurd heq (by simp)
    · rename_i heq
      split at heq
      · exact absurd heq (by simp)
      · rename_i hnle
        constructor
        · intro _
          omega
        · intro _
          rfl
  · rw [ne_eq, convertBuffer_length_eq_iff]
    push_neg
    rfl
  · unfold constructImage rgbaImage_from_raw
    split
    · rename_i img heq
      split at heq
      · rename_i hcle
        simp only [Option.some.injEq] at heq
        subst heq
        constructor
        · intro _
          exact le_antisymm hle hcle
        · intro _
          rfl
      · exact absurd heq (by simp)
    · rename_i heq
      split at heq
      · exact absurd heq (by simp)
      · rename_i hnle
        constructor
        · intro h
          exact absurd h (by simp)
        · intro h
          exact absurd h (by omega)

/-- Lock-related operations that `image_buf_to_rgba` performs on the native
pixel buffer, in order: a successful lock acquisition, the unlock call, and
the debug log emitted when the unlock call fails. -/
inductive BufEvent where
  | lockAcquired
  | unlockAttempt
  | logUnlockFailure
  deriving DecidableEq, Repr

/-- Trace-level model of `image_buf_to_rgba` (`src/capture.rs` lines 68-137).
The OS buffer operations are modelled by their outcomes: `lockOk` is whether
`lock_base_addr` succeeds, `baseNull` whether the reported base address is
null, `unlockOk` whether `unlock_lock_base_addr` succeeds.  The function
returns the `XCapResult` together with the ordered trace of lock-related
operations performed.  As in the source, the unlock call sits after the
`result` computation and covers the null-address, failed-construction and
success cases alike, and its own failure is only logged. -/
def image_buf_to_rgba (lockOk baseNull unlockOk : Bool)
    (width height bytesPerRow : Nat) (pixels : List Nat) :
    Except XCapError RgbaImage × List BufEvent :=
  if !lockOk then
    (Except.error (XCapError.captureFailed "Failed to lock pixel buffer"), [])
  else
    let result : Except XCapError RgbaImage :=
      if baseNull then
        Except.error (XCapError.captureFailed "Pixel buffer base address is null")
      else
        constructImage width height (convertBuffer width height bytesPerRow pixels)
    let unlockEvents : List BufEvent :=
      if unlockOk then [BufEvent.unlockAttempt]
      else [BufEvent.unlockAttempt, BufEvent.logUnlockFailure]
    (result, BufEvent.lockAcquired :: unlockEvents)

/-- C5.  Lock release on every exit path: whenever the lock is acquired
(`lockOk = true`), the trace performs the unlock exactly once, immediately
after the lock and before returning, on the null-address, construction-failure
and success paths alike; and the returned result is the same whether the
unlock call succeeds or fails. -/
theorem lock_released_on_every_exit_path (lockOk baseNull unlockOk : Bool)
    (width height bytesPerRow : Nat) (pixels : List Nat)
    (h : lockOk = true) :
    ((image_buf_to_rgba lockOk baseNull unlockOk width height bytesPerRow pixels).2.count
        BufEvent.unlockAttempt = 1)
    ∧ (∃ es, (image_buf_to_rgba lockOk baseNull unlockOk width height bytesPerRow pixels).2
        = [BufEvent.lockAcquired, BufEvent.unlockAttempt] ++ es)
    ∧ (∀ unlockOk' : Bool,
        (image_buf_to_rgba lockOk baseNull unlockOk' width height bytesPerRow pixels).1
          = (image_buf_to_rgba lockOk baseNull unlockOk width height bytesPerRow pixels).1) := by
  subst h
  unfold image_buf_to_rgba
  cases baseNull <;> cases unlockOk <;>
    refine ⟨by simp [List.count_cons], ?_, by intro u; cases u <;> rfl⟩
  · exact ⟨[BufEvent.logUnlockFailure], rfl⟩
  · exact ⟨[], rfl⟩
  · exact ⟨[BufEvent.logUnlockFailure], rfl⟩
  · exact ⟨[], rfl⟩

/-- Saturating conversion to `u32`, as Rust `as u32` casts behave on the
window/display coordinate differences (negative values clamp to 0, values
above `u32::MAX` clamp to `u32::MAX`). -/
def castU32 (i : Int) : Nat :=
  (min (max i 0) (2 ^ 32 - 1)).toNat

/-- The crop-rectangle computation of `capture_window_async`
(`src/capture.rs` lines 229-236): translate the window origin into the
owning display's local coordinates, cast to `u32`, then clamp the origin
with `min`/`saturating_sub` to the captured image bounds and the extent to
what remains from the clamped origin.  `Nat` subtraction is saturating,
matching `u32::saturating_sub`. -/
def cropRect (windowX windowY displayX displayY : Int)
    (windowWidth windowHeight imageWidth imageHeight : Nat) :
    Nat × Nat × Nat × Nat :=
  let cropX0 := castU32 (windowX - displayX)
  let cropY0 := castU32 (windowY - displayY)
  let cropX := min cropX0 (imageWidth - 1)
  let cropY := min cropY0 (imageHeight - 1)
  let cropW := min windowWidth (imageWidth - cropX)
  let cropH := min windowHeight (imageHeight - cropY)
  (cropX, cropY, cropW, cropH)

/-- C2.  Crop clamp: for every window frame, owning display frame and
captured image size, the crop rectangle satisfies
`crop_x + crop_width ≤ image_width`, `crop_y + crop_height ≤ image_height`,
`crop_x ≤ image_width - 1` and `crop_y ≤ image_height - 1`, even when the
window's raw frame extends past the display bounds. -/
theorem crop_rect_clamped (windowX windowY displayX displayY : Int)
    (windowWidth windowHeight imageWidth imageHeight : Nat) :
    (cropRect windowX windowY displayX displayY
        windowWidth windowHeight imageWidth imageHeight).1
      + (cropRect windowX windowY displayX displayY
          windowWidth windowHeight imageWidth imageHeight).2.2.1 ≤ imageWidth
    ∧ (cropRect windowX windowY displayX displayY
        windowWidth windowHeight imageWidth imageHeight).2.1
      + (cropRect windowX windowY displayX displayY
          windowWidth windowHeight imageWidth imageHeight).2.2.2 ≤ imageHeight
    ∧ (cropRect windowX windowY displayX displayY
        windowWidth windowHeight imageWidth imageHeight).1 ≤ imageWidth - 1
    ∧ (cropRect windowX windowY displayX displayY
        windowWidth windowHeight imageWidth imageHeight).2.1 ≤ imageHeight - 1 := by
  unfold cropRect
  dsimp only
  omega

/-- Substring containment, as Rust `str::contains(&str)`: the needle occurs
as a contiguous infix of the haystack. -/
def strContains (haystack needle : String) : Bool :=
  decide (needle.toList <:+: haystack.toList)

/-- The error mapping of `get_shareable_content` (`src/capture.rs` lines
42-49): the OS error's debug description is classified as
`PermissionDenied` when it contains "permission", "denied" or "-3801",
and as `CaptureFailed` carrying the description otherwise. -/
def get_shareable_content_err (errStr : String) : XCapError :=
  if strContains errStr "permission" || strContains errStr "denied"
      || strContains errStr "-3801" then
    XCapError.permissionDenied
  else
    XCapError.captureFailed ("Failed to get shareable content: " ++ errStr)

/-- The error mapping applied to the shareable-content call inside
`capture_window_async` and `capture_monitor_async` (`src/capture.rs` lines
155-157 and 262-264): every failure becomes `CaptureFailed`, with no
permission classification. -/
def capture_shareable_err (errStr : String) : XCapError :=
  XCapError.captureFailed ("Failed to get shareable content: " ++ errStr)

/-- The error mapping applied to the single-frame
`ScreenshotManager::capture_sample_buf` call (`src/capture.rs` lines
215-217 and 286-288): every failure becomes `CaptureFailed`. -/
def screenshot_capture_err (errStr : String) : XCapError :=
  XCapError.captureFailed ("Screenshot capture failed: " ++ errStr)

/-- C6 counterexample: inside the single-frame capture pipeline, an OS error
whose description plainly reports a permission failure is surfaced as
`CaptureFailed`, not `PermissionDenied` — the permission classification the
claim asserts for "shareable-content enumeration and single-frame capture
alike" is absent from both capture-path error mappings. -/
theorem capture_path_does_not_classify_permission :
    capture_shareable_err "The operation failed: permission denied (-3801)"
        ≠ XCapError.permissionDenied
    ∧ screenshot_capture_err "The operation failed: permission denied (-3801)"
        ≠ XCapError.permissionDenied
    ∧ strContains "The operation failed: permission denied (-3801)" "permission" = true := by
  refine ⟨?_, ?_, by decide⟩ <;> simp [capture_shareable_err, screenshot_capture_err]

/-- C6 amended.  Only the synchronous shareable-content helper
`get_shareable_content` (used by `Monitor::all` and `Window::all`)
classifies OS errors whose description contains "permission", "denied" or
"-3801" as `PermissionDenied`; the OS calls issued by the capture paths map
every failure, permission-flavoured or not, to `CaptureFailed`. -/
theorem permission_classification_shareable_content_only (errStr : String) :
    (get_shareable_content_err errStr = XCapError.permissionDenied
      ↔ strContains errStr "permission" = true ∨ strContains errStr "denied" = true
        ∨ strContains errStr "-3801" = true)
    ∧ (get_shareable_content_err errStr ≠ XCapError.permissionDenied
      → get_shareable_content_err errStr
          = XCapError.captureFailed ("Failed to get shareable content: " ++ errStr))
    ∧ capture_shareable_err errStr
        = XCapError.captureFailed ("Failed to get shareable content: " ++ errStr)
    ∧ screenshot_capture_err errStr
        = XCapError.captureFailed ("Screenshot capture failed: " ++ errStr) := by
  refine ⟨?_, ?_, rfl, rfl⟩
  · unfold get_shareable_content_err
    split
    · rename_i hcond
      simp only [Bool.or_eq_true] at hcond
      simp [hcond]
      tauto
    · rename_i hcond
      simp only [Bool.or_eq_true] at hcond
      push_neg at hcond
      constructor
      · intro hcontra
        exact absurd hcontra (by simp)
      · intro hdisj
        exact absurd hdisj (by tauto)
  · intro h
    unfold get_shareable_content_err at h ⊢
    split
    · rename_i hc
      rw [if_pos hc] at h
      exact absurd rfl h
    · rfl

/-- Model of an `sc::Display` as the pipeline reads it: the `u32` display id,
the frame origin in global coordinates and the frame/report size
(`src/monitor.rs`, `src/capture.rs`).  Coordinates are modelled as `Int`
since only ordering, addition and the exact comparison with zero are used. -/
structure SCDisplay where
  displayId : Nat
  originX : Int
  originY : Int
  width : Nat
  height : Nat
  deriving DecidableEq, Repr

/-- The containment test of `capture_window_async` (`src/capture.rs` lines
182-189): the window's origin point lies inside this display's frame. -/
def displayContainsOrigin (d : SCDisplay) (windowX windowY : Int) : Bool :=
  decide (d.originX ≤ windowX) && decide (d.originY ≤ windowY)
    && decide (windowX < d.originX + (d.width : Int))
    && decide (windowY < d.originY + (d.height : Int))

/-- The owning-display selection of `capture_window_async` (`src/capture.rs`
lines 179-191): the first display whose frame contains the window origin,
else the first enumerated display, else (empty display list) the
"No display found for window" error. -/
def selectOwningDisplay (displays : List SCDisplay) (windowX windowY : Int) :
    Except XCapError SCDisplay :=
  match displays.find? (fun d => displayContainsOrigin d windowX windowY) with
  | some d => Except.ok d
  | none =>
    match displays.head? with
    | some d => Except.ok d
    | none => Except.error (XCapError.captureFailed "No display found for window")

/-- C7 counterexample: when the enumerated display list is empty, the
owning-display selection step returns an error, so the selection is not
error-free for every window-capture request. -/
theorem owning_display_selection_errors_on_empty :
    selectOwningDisplay [] 0 0
      = Except.error (XCapError.captureFailed "No display found for window") := rfl

/-- C7 amended.  Whenever at least one display is enumerated, the
owning-display selection never fails: it returns a display of the list,
namely one containing the window's origin (the first such), or, when no
display's frame contains the origin, the first enumerated display. -/
theorem owning_display_selection_total_of_nonempty (displays : List SCDisplay)
    (windowX windowY : Int) (h : displays ≠ []) :
    ∃ d ∈ displays, selectOwningDisplay displays windowX windowY = Except.ok d
      ∧ (displayContainsOrigin d windowX windowY = true
        ∨ ((∀ d' ∈ displays, displayContainsOrigin d' windowX windowY = false)
          ∧ displays.head? = some d)) := by
  unfold selectOwningDisplay
  cases hf : displays.find? (fun d => displayContainsOrigin d windowX windowY) with
  | some d =>
      have hp : displayContainsOrigin d windowX windowY = true := by
        have hq := List.find?_some hf
        simpa using hq
      exact ⟨d, List.mem_of_find?_eq_some hf, rfl, Or.inl hp⟩
  | none =>
      cases hh : displays.head? with
      | some d =>
          refine ⟨d, ?_, rfl, Or.inr ⟨?_, rfl⟩⟩
          · exact List.mem_of_mem_head? hh
          · intro d' hd'
            have := List.find?_eq_none.mp hf d' hd'
            simpa using this
      | none =>
          exact absurd (List.head?_eq_none_iff.mp hh) h

/-- Model of the `Monitor` value object (`src/monitor.rs` lines 13-35),
restricted to the integer-valued fields the claims are about.  The
floating-point `scale_factor` and the CoreGraphics-derived
`logical_width`/`logical_height` fields are cross-API informational data not
modelled here; they do not feed the primary-flag computation. -/
structure Monitor where
  displayId : Nat
  name : String
  x : Int
  y : Int
  width : Nat
  height : Nat
  isPrimary : Bool
  deriving DecidableEq, Repr

/-- The primary-display id computation of `Monitor::all` (`src/monitor.rs`
lines 53-60): the id of the first display whose frame origin is exactly
`(0,0)`, else the id of the first enumerated display, else (empty list,
unreachable past the emptiness check) `0`. -/
def primaryId (displays : List SCDisplay) : Nat :=
  match displays.find? (fun d => d.originX == 0 && d.originY == 0) with
  | some d => d.displayId
  | none =>
    match displays.head? with
    | some d => d.displayId
    | none => 0

/-- `Monitor::all` (`src/monitor.rs` lines 42-137): fail with `NoMonitors`
on an empty display list, otherwise build one `Monitor` per display, marking
as primary every display whose id equals `primaryId`. -/
def Monitor.all (displays : List SCDisplay) : Except XCapError (List Monitor) :=
  if displays.isEmpty then Except.error XCapError.noMonitors
  else
    Except.ok (displays.map fun d =>
      ⟨d.displayId, "Display " ++ toString d.displayId, d.originX, d.originY,
       d.width, d.height, d.displayId == primaryId displays⟩)

/-- `Monitor::primary` (`src/monitor.rs` lines 140-146): the first enumerated
monitor with `is_primary = true`, or the "No primary monitor found" error. -/
def Monitor.primary (displays : List SCDisplay) : Except XCapError Monitor :=
  match Monitor.all displays with
  | Except.error e => Except.error e
  | Except.ok monitors =>
    match monitors.find? (fun m => m.isPrimary) with
    | some m => Except.ok m
    | none => Except.error (XCapError.other "No primary monitor found")

lemma primaryId_mem (displays : List SCDisplay) (h : displays ≠ []) :
    primaryId displays ∈ displays.map SCDisplay.displayId := by
  unfold primaryId
  cases hf : displays.find? (fun d => d.originX == 0 && d.originY == 0) with
  | some d =>
      exact List.mem_map.mpr ⟨d, List.mem_of_find?_eq_some hf, rfl⟩
  | none =>
      cases hh : displays.head? with
      | some d => exact List.mem_map.mpr ⟨d, List.mem_of_mem_head? (by rw [hh]; rfl), rfl⟩
      | none => exact absurd (List.head?_eq_none_iff.mp hh) h

/-- C3.  Primary-display invariant: on every successful enumeration (with the
platform guarantee that display ids identify displays, i.e. the enumerated
ids are pairwise distinct), exactly one returned monitor has
`is_primary = true`; every primary monitor carries `primaryId`, which is the
id of the first display whose origin is exactly `(0,0)` or, if none, the id
of the first display in enumeration order. -/
theorem monitor_all_exactly_one_primary (displays : List SCDisplay)
    (monitors : List Monitor)
    (hnodup : (displays.map SCDisplay.displayId).Nodup)
    (h : Monitor.all displays = Except.ok monitors) :
    ((monitors.filter fun m => m.isPrimary).length = 1)
    ∧ (∀ m ∈ monitors, m.isPrimary = true → m.displayId = primaryId displays)
    ∧ (∀ d, displays.find? (fun d => d.originX == 0 && d.originY == 0) = some d →
        primaryId displays = d.displayId ∧ d.originX = 0 ∧ d.originY = 0)
    ∧ (displays.find? (fun d => d.originX == 0 && d.originY == 0) = none →
        ∀ d₀, displays.head? = some d₀ → primaryId displays = d₀.displayId) := by
  unfold Monitor.all at h
  split at h
  · exact absurd h (by simp)
  · rename_i hne
    have hne' : displays ≠ [] := by
      intro hcontra
      rw [hcontra] at hne
      exact hne rfl
    simp only [Except.ok.injEq] at h
    subst h
    refine ⟨?_, ?_, ?_, ?_⟩
    · rw [List.filter_map, List.length_map, ← List.countP_eq_length_filter]
      have hc : List.countP
          ((fun m : Monitor => m.isPrimary) ∘ fun d : SCDisplay =>
            (⟨d.displayId, "Display " ++ toString d.displayId, d.originX, d.originY,
              d.width, d.height, d.displayId == primaryId displays⟩ : Monitor))
          displays
          = List.countP (fun x => x == primaryId displays) (displays.map SCDisplay.displayId) := by
        rw [List.countP_map]
        rfl
      rw [hc]
      have := List.count_eq_one_of_mem hnodup (primaryId_mem displays hne')
      simpa [List.count] using this
    · intro m hm hp
      rcases List.mem_map.mp hm with ⟨d, _, hd⟩
      subst hd
      simpa using hp
    · intro d hd
      refine ⟨by unfold primaryId; rw [hd], ?_⟩
      have := List.find?_some hd
      simp only [Bool.and_eq_true, beq_iff_eq] at this
      exact this
    · intro hnone d₀ hd₀
      unfold primaryId
      rw [hnone, hd₀]

/-- C10.  Whenever `Monitor::all` succeeds, the primary-id computation picks
the id of some enumerated display, so at least one returned monitor is
primary and `Monitor::primary`'s "No primary monitor found" branch is
unreachable: `Monitor::primary` succeeds and returns a primary monitor of
the enumerated set. -/
theorem monitor_primary_total_on_ok (displays : List SCDisplay)
    (monitors : List Monitor)
    (h : Monitor.all displays = Except.ok monitors) :
    ∃ m ∈ monitors, Monitor.primary displays = Except.ok m ∧ m.isPrimary = true := by
  have hex : ∃ m ∈ monitors, m.isPrimary = true := by
    unfold Monitor.all at h
    split at h
    · exact absurd h (by simp)
    · rename_i hne
      have hne' : displays ≠ [] := by
        intro hcontra
        rw [hcontra] at hne
        exact hne rfl
      simp only [Except.ok.injEq] at h
      subst h
      rcases List.mem_map.mp (primaryId_mem displays hne') with ⟨d, hdmem, hdid⟩
      refine ⟨_, List.mem_map.mpr ⟨d, hdmem, rfl⟩, ?_⟩
      simpa using hdid
  have hsome : (monitors.find? (fun m => m.isPrimary)).isSome = true := by
    rw [List.find?_isSome]
    rcases hex with ⟨m, hm, hp⟩
    exact ⟨m, hm, hp⟩
  cases hf : monitors.find? (fun m => m.isPrimary) with
  | none => rw [hf] at hsome; simp at hsome
  | some m =>
      refine ⟨m, List.mem_of_find?_eq_some hf, ?_, List.find?_some hf⟩
      unfold Monitor.primary
      rw [h]
      dsimp only
      rw [hf]

/-- Model of an `sc::Window` as `Window::all` reads it (`src/window.rs`):
the `u32` window id, the title, the owning application (name and `pid`)
when SCK provides one, the frame, and the on-screen flag.  Frame sizes are
the `u32` values obtained from the `f64` frame. -/
structure SCWindow where
  windowId : Nat
  title : String
  owningApp : Option (String × Int)
  originX : Int
  originY : Int
  width : Nat
  height : Nat
  isOnScreen : Bool
  deriving DecidableEq, Repr

/-- Model of the `Window` value object (`src/window.rs` lines 108-128). -/
structure Window where
  windowId : Nat
  appName : String
  title : String
  pid : Int
  x : Int
  y : Int
  width : Nat
  height : Nat
  isOnScreen : Bool
  deriving DecidableEq, Repr

/-- The SCK/CGWindow metadata reconciliation of `Window::all`
(`src/window.rs` lines 157-173).  `cgLookup` is the one-time
id-to-(app name, title, pid) map built from the CGWindowList snapshot; it is
consulted only under the `app_name.is_empty() || pid < 0` guard, and each
field is backfilled only when it is itself missing (empty name backfilled by
a non-empty CG name; negative pid backfilled by a non-negative CG pid). -/
def mergeAppInfo (cgLookup : Nat → Option (String × String × Int))
    (windowId : Nat) (appName : String) (pid : Int) : String × Int :=
  if appName = "" ∨ pid < 0 then
    match cgLookup windowId with
    | some (cgApp, _, cgPid) =>
        (if appName = "" ∧ cgApp ≠ "" then cgApp else appName,
         if pid < 0 ∧ 0 ≤ cgPid then cgPid else pid)
    | none => (appName, pid)
  else (appName, pid)

/-- The owning-app fields as the `match w.owning_app()` of `Window::all`
reads them (`src/window.rs` lines 157-160): the app name and process id when
SCK provides an owning application, the empty string and the `-1` sentinel
otherwise. -/
def sckAppInfo (w : SCWindow) : String × Int :=
  match w.owningApp with
  | some (n, p) => (n, p)
  | none => ("", -1)

/-- The body of the `filter_map` closure of `Window::all` (`src/window.rs`
lines 149-202): read the SCK metadata, backfill it through `mergeAppInfo`,
and skip (return `none` for) windows whose frame width or height is below
10 pixels. -/
def buildWindow (cgLookup : Nat → Option (String × String × Int))
    (w : SCWindow) : Option Window :=
  if w.width < 10 ∨ w.height < 10 then none
  else
    some ⟨w.windowId,
          (mergeAppInfo cgLookup w.windowId (sckAppInfo w).1 (sckAppInfo w).2).1,
          w.title,
          (mergeAppInfo cgLookup w.windowId (sckAppInfo w).1 (sckAppInfo w).2).2,
          w.originX, w.originY, w.width, w.height, w.isOnScreen⟩

/-- `Window::all` (`src/window.rs` lines 135-210): fail with `NoWindows` on
an empty SCK window list; otherwise build the windows through `buildWindow`,
and fail with `NoWindows` if the filtered list is empty. -/
def Window.all (cgLookup : Nat → Option (String × String × Int))
    (scWindows : List SCWindow) : Except XCapError (List Window) :=
  if scWindows.isEmpty then Except.error XCapError.noWindows
  else if (scWindows.filterMap (buildWindow cgLookup)).isEmpty then
    Except.error XCapError.noWindows
  else Except.ok (scWindows.filterMap (buildWindow cgLookup))

/-- C4.  Minimum-size filter invariant: every window in a successful
`Window::all` result has width at least 10 and height at least 10; each
returned window comes from a source window with the same (≥ 10) frame size,
so sub-threshold source windows are excluded. -/
theorem window_all_min_size (cgLookup : Nat → Option (String × String × Int))
    (scWindows : List SCWindow) (windows : List Window)
    (h : Window.all cgLookup scWindows = Except.ok windows) :
    ∀ w ∈ windows, 10 ≤ w.width ∧ 10 ≤ w.height := by
  unfold Window.all at h
  split at h
  · exact absurd h (by simp)
  · split at h
    · exact absurd h (by simp)
    · simp only [Except.ok.injEq] at h
      subst h
      intro w hw
      rcases List.mem_filterMap.mp hw with ⟨sw, _, hsw⟩
      unfold buildWindow at hsw
      split at hsw
      · exact absurd hsw (by simp)
      · rename_i hsize
        push_neg at hsize
        simp only [Option.some.injEq] at hsw
        subst hsw
        exact ⟨hsize.1, hsize.2⟩

/-- C9.  Backfill-only reconciliation: when the SCK-provided app name is
non-empty and the pid non-negative, the merge returns them untouched for
every CGWindow snapshot (the secondary source is irrelevant); a non-empty
app name is never overwritten, a non-negative pid is never overwritten; and
when a field is missing, the CGWindow entry backfills exactly that field
(an empty app name by a non-empty CG name, a negative pid by a
non-negative CG pid). -/
theorem window_reconciliation_backfill_only
    (cgLookup : Nat → Option (String × String × Int))
    (windowId : Nat) (appName : String) (pid : Int) :
    (appName ≠ "" ∧ 0 ≤ pid →
      ∀ cgLookup' : Nat → Option (String × String × Int),
        mergeAppInfo cgLookup' windowId appName pid = (appName, pid))
    ∧ (appName ≠ "" → (mergeAppInfo cgLookup windowId appName pid).1 = appName)
    ∧ (0 ≤ pid → (mergeAppInfo cgLookup windowId appName pid).2 = pid)
    ∧ (∀ cgApp cgTitle cgPid,
        cgLookup windowId = some (cgApp, cgTitle, cgPid) →
          (appName = "" → cgApp ≠ "" →
            (mergeAppInfo cgLookup windowId appName pid).1 = cgApp)
          ∧ (pid < 0 → 0 ≤ cgPid →
            (mergeAppInfo cgLookup windowId appName pid).2 = cgPid)) := by
  refine ⟨?_, ?_, ?_, ?_⟩
  · rintro ⟨hn, hp⟩ cgLookup'
    unfold mergeAppInfo
    rw [if_neg]
    push_neg
    exact ⟨hn, by omega⟩
  · intro hn
    unfold mergeAppInfo
    split
    · split
      · rename_i heq
        dsimp only
        rw [if_neg]
        intro hcontra
        exact hn hcontra.1
      · rfl
    · rfl
  · intro hp
    unfold mergeAppInfo
    split
    · split
      · rename_i heq
        dsimp only
        rw [if_neg]
        intro hcontra
        omega
      · rfl
    · rfl
  · intro cgApp cgTitle cgPid hcg
    constructor
    · intro hn hcga
      unfold mergeAppInfo
      rw [if_pos (Or.inl hn), hcg]
      dsimp only
      rw [if_pos ⟨hn, hcga⟩]
    · intro hp hcgp
      unfold mergeAppInfo
      rw [if_pos (Or.inr hp), hcg]
      dsimp only
      rw [if_pos ⟨hp, hcgp⟩]

/-- Witness for C3 at the spec's two-display scenario: one display at
`(0,0)` sized 2560x1440 and a second at `(2560,0)` sized 1920x1080; the
first is the unique primary. -/
theorem monitor_all_exactly_one_primary_witness :
    (([⟨1, 0, 0, 2560, 1440⟩, ⟨2, 2560, 0, 1920, 1080⟩] : List SCDisplay).map
        SCDisplay.displayId).Nodup
    ∧ Monitor.all [⟨1, 0, 0, 2560, 1440⟩, ⟨2, 2560, 0, 1920, 1080⟩]
        = Except.ok [⟨1, "Display 1", 0, 0, 2560, 1440, true⟩,
                     ⟨2, "Display 2", 2560, 0, 1920, 1080, false⟩]
    ∧ (([⟨1, "Display 1", 0, 0, 2560, 1440, true⟩,
         ⟨2, "Display 2", 2560, 0, 1920, 1080, false⟩] : List Monitor).filter
        fun m => m.isPrimary).length = 1 :=
  ⟨by decide, by rfl,
   (monitor_all_exactly_one_primary [⟨1, 0, 0, 2560, 1440⟩, ⟨2, 2560, 0, 1920, 1080⟩]
      [⟨1, "Display 1", 0, 0, 2560, 1440, true⟩, ⟨2, "Display 2", 2560, 0, 1920, 1080, false⟩]
      (by decide) (by rfl)).1⟩

/-- Witness for C10 at a one-display configuration whose origin is not
`(0,0)`, exercising the first-display fallback of the primary-id
computation. -/
theorem monitor_primary_total_on_ok_witness :
    Monitor.all [⟨3, 5, 5, 800, 600⟩]
        = Except.ok [⟨3, "Display 3", 5, 5, 800, 600, true⟩]
    ∧ ∃ m ∈ ([⟨3, "Display 3", 5, 5, 800, 600, true⟩] : List Monitor),
        Monitor.primary [⟨3, 5, 5, 800, 600⟩] = Except.ok m ∧ m.isPrimary = true :=
  ⟨by rfl,
   monitor_primary_total_on_ok [⟨3, 5, 5, 800, 600⟩]
     [⟨3, "Display 3", 5, 5, 800, 600, true⟩] (by rfl)⟩

/-- Witness for C4 at a one-window list whose window is 800x600 with full
SCK metadata. -/
theorem window_all_min_size_witness :
    Window.all (fun _ => none) [⟨7, "Doc", some ("TextEdit", 42), 0, 0, 800, 600, true⟩]
        = Except.ok [⟨7, "TextEdit", "Doc", 42, 0, 0, 800, 600, true⟩]
    ∧ ∀ w ∈ ([⟨7, "TextEdit", "Doc", 42, 0, 0, 800, 600, true⟩] : List Window),
        10 ≤ w.width ∧ 10 ≤ w.height :=
  ⟨by rfl,
   window_all_min_size (fun _ => none)
     [⟨7, "Doc", some ("TextEdit", 42), 0, 0, 800, 600, true⟩]
     [⟨7, "TextEdit", "Doc", 42, 0, 0, 800, 600, true⟩] (by rfl)⟩

/-- Witness for C5 on a concrete 2x2 buffer with stride 8: the trace performs
exactly one unlock, and the result is unchanged when the unlock call fails. -/
theorem lock_released_on_every_exit_path_witness :
    ((image_buf_to_rgba true false true 2 2 8 (List.replicate 32 7)).2.count
        BufEvent.unlockAttempt = 1)
    ∧ (image_buf_to_rgba true false false 2 2 8 (List.replicate 32 7)).1
        = (image_buf_to_rgba true false true 2 2 8 (List.replicate 32 7)).1 :=
  ⟨(lock_released_on_every_exit_path true false true 2 2 8 (List.replicate 32 7) rfl).1,
   (lock_released_on_every_exit_path true false true 2 2 8 (List.replicate 32 7) rfl).2.2 false⟩

/-- Witness for the amended C6 at the description "access denied": the
enumeration helper classifies it as `PermissionDenied`, while the capture
path surfaces `CaptureFailed`. -/
theorem permission_classification_shareable_content_only_witness :
    get_shareable_content_err "access denied" = XCapError.permissionDenied
    ∧ capture_shareable_err "access denied"
        = XCapError.captureFailed ("Failed to get shareable content: " ++ "access denied") :=
  ⟨(permission_classification_shareable_content_only "access denied").1.mpr
      (Or.inr (Or.inl (by decide))),
   (permission_classification_shareable_content_only "access denied").2.2.1⟩

/-- Witness for the amended C7 at a one-display list and a window origin
outside every display frame, exercising the first-display fallback. -/
theorem owning_display_selection_total_witness :
    ([(⟨1, 0, 0, 100, 100⟩ : SCDisplay)] ≠ [])
    ∧ ∃ d ∈ [(⟨1, 0, 0, 100, 100⟩ : SCDisplay)],
        selectOwningDisplay [⟨1, 0, 0, 100, 100⟩] 500 500 = Except.ok d
          ∧ (displayContainsOrigin d 500 500 = true
            ∨ ((∀ d' ∈ [(⟨1, 0, 0, 100, 100⟩ : SCDisplay)],
                  displayContainsOrigin d' 500 500 = false)
              ∧ [(⟨1, 0, 0, 100, 100⟩ : SCDisplay)].head? = some d)) :=
  ⟨by decide,
   owning_display_selection_total_of_nonempty [⟨1, 0, 0, 100, 100⟩] 500 500 (by decide)⟩

/-- Witness for C9: a negative pid next to a non-empty SCK app name is
backfilled from the CG snapshot without touching the app name, and fully
populated SCK metadata passes through untouched for any snapshot. -/
theorem window_reconciliation_backfill_only_witness :
    (mergeAppInfo (fun _ => some ("CGApp", "t", 42)) 7 "Safari" (-1)).1 = "Safari"
    ∧ (mergeAppInfo (fun _ => some ("CGApp", "t", 42)) 7 "Safari" (-1)).2 = 42
    ∧ mergeAppInfo (fun _ => some ("CGApp", "t", 42)) 7 "Mail" 5 = ("Mail", 5) :=
  ⟨(window_reconciliation_backfill_only (fun _ => some ("CGApp", "t", 42)) 7 "Safari" (-1)).2.1
      (by decide),
   ((window_reconciliation_backfill_only (fun _ => some ("CGApp", "t", 42)) 7 "Safari" (-1)).2.2.2
      "CGApp" "t" 42 rfl).2 (by decide) (by decide),
   (window_reconciliation_backfill_only (fun _ => some ("CGApp", "t", 42)) 7 "Mail" 5).1
      ⟨by decide, by decide⟩ (fun _ => some ("CGApp", "t", 42))⟩

end Sck
